import Mathlib

/-!
Verification of the Ribbit Network frog sensor CO2 daemon
(src/software/co2/co2.py) against its natural-language specification.

The Python module is shallowly embedded: floats that the claims only
compare for equality or sign are modelled as `Rat`, timestamps
(`datetime`) are modelled as `Int` instants, exceptions are modelled as
`Except`, and effectful collaborators (gpsd, the SCD30 CO2 sensor, the
DPS310 barometer) are passed in as explicit inputs or state records.
-/

namespace RibbitCo2

/-- Embeds the `GpsData` dataclass: uniform data type returned by GPS
implementations (latitude, longitude, optional altitude, acquisition
timestamp). -/
structure GpsData where
  latitude : Rat
  longitude : Rat
  altitude : Option Rat
  acquired_at : Int
deriving Repr, DecidableEq

/-- Errors raised by `BaseGps.get_data`: the "Last fix is too old" exception
(carrying the age and the `GPS_FIX_MAX_AGE` threshold) and the
"Waiting for first fix" exception. -/
inductive GpsError where
  | staleFix (age : Int) (maxAge : Int)
  | waitingFirstFix
deriving Repr, DecidableEq

/-- Log events emitted by the embedded code paths. -/
inductive LogEvent where
  | warnUsingLastFix (age : Int)
  | errorGettingGpsPosition
deriving Repr, DecidableEq

/-- The mutable state of a `BaseGps` instance: the `_last_fix` field. -/
structure CacheState where
  last_fix : Option GpsData
deriving Repr, DecidableEq

/-- Result of one `BaseGps.get_data` call: the returned fix or raised
exception, the cache state afterwards, and the log messages emitted. -/
structure GetDataResult where
  result : Except GpsError GpsData
  state : CacheState
  logs : List LogEvent
deriving Repr

/-- Embeds `BaseGps.get_data`. The underlying `self._get_data()` call is
passed in as `acquireResult` (its exception payload is a `String`, matching
the broad `except Exception`), `now` stands for `datetime.now()` and
`maxAge` for `GPS_FIX_MAX_AGE`. The first phase mirrors the
`try/except` statement (the assignment to `_last_fix` only happens when
`_get_data` returns; a handled exception falls through), the second
mirrors the `if self._last_fix is None` check and the final return. -/
def get_data (maxAge now : Int) (acquireResult : Except String GpsData)
    (s : CacheState) : GetDataResult :=
  let step : Except GpsError (CacheState × List LogEvent) :=
    match acquireResult with
    | Except.ok fix => Except.ok ({ last_fix := some fix }, [])
    | Except.error _ =>
      match s.last_fix with
      | none => Except.ok (s, [])
      | some f =>
        let age := now - f.acquired_at
        if age < maxAge then
          Except.ok (s, [LogEvent.warnUsingLastFix age])
        else
          Except.error (GpsError.staleFix age maxAge)
  match step with
  | Except.error e => { result := Except.error e, state := s, logs := [] }
  | Except.ok (s₁, logs) =>
    match s₁.last_fix with
    | none =>
      { result := Except.error GpsError.waitingFirstFix, state := s₁, logs := logs }
    | some f => { result := Except.ok f, state := s₁, logs := logs }

/-- The mutable state of a `GpsdGps` instance: the `_is_valid` flag
(initialised to `False` in `__init__`). -/
structure GpsdState where
  is_valid : Bool
deriving Repr, DecidableEq

/-- Embeds `GpsdGps._connect`. `connectOk` stands for whether the
`gpsd.connect()` call succeeds. The `try` body runs `gpsd.connect()`; on
failure the `except` clause sets `_is_valid = False` and re-raises; the
`finally` clause then runs on every exit path (success or propagating
exception) and sets `_is_valid = True` before control leaves the method. -/
def gpsd_connect (connectOk : Bool) (s : GpsdState) : Except Unit Unit × GpsdState :=
  if connectOk then
    (Except.ok (), { s with is_valid := true })
  else
    let s₁ : GpsdState := { s with is_valid := false }
    (Except.error (), { s₁ with is_valid := true })

/-- Embeds `GpsdGps._get_data`. If `_is_valid` is false, `_connect` runs
first (its exception propagates). The fetch from `gpsd.get_current()` and
the construction of the `GpsData` are passed in as `fetchResult`; on a
fetch failure `_is_valid` is set to `False` and the exception re-raised. -/
def gpsd_get_data (connectOk : Bool) (fetchResult : Except String GpsData)
    (s : GpsdState) : Except Unit GpsData × GpsdState :=
  let (connectRes, s₁) :=
    if !s.is_valid then gpsd_connect connectOk s else (Except.ok (), s)
  match connectRes with
  | Except.error e => (Except.error e, s₁)
  | Except.ok _ =>
    match fetchResult with
    | Except.ok d => (Except.ok d, s₁)
    | Except.error _ => (Except.error (), { s₁ with is_valid := false })

/-- Embeds `DummyGps._get_data`: always returns a `GpsData` built from the
configured `DUMMY_GPS_LATITUDE` / `DUMMY_GPS_LONGITUDE` /
`DUMMY_GPS_ALTITUDE` values; `acquired_at` takes its dataclass default
`datetime.now()`, passed in as `now`. It never raises. -/
def dummy_get_data (cfg_latitude cfg_longitude cfg_altitude : Rat)
    (now : Int) : Except String GpsData :=
  Except.ok
    { latitude := cfg_latitude
      longitude := cfg_longitude
      altitude := some cfg_altitude
      acquired_at := now }

/-- Embeds the `ENABLE_INFLUXDB` module constant:
`os.getenv("ENABLE_INFLUXDB", "true") in ["true", "True", "1", "yes", "Yes"]`.
`env` is the raw environment variable (`none` when unset). -/
def enable_influxdb (env : Option String) : Bool :=
  (["true", "True", "1", "yes", "Yes"] : List String).contains (env.getD "true")

/-- The mutable state of the SCD30 CO2 sensor that the sampling loop
writes: its `ambient_pressure` calibration register. -/
structure ScdState where
  ambient_pressure : Rat
deriving Repr, DecidableEq

/-- The sensor readings consumed by one iteration of the sampling loop:
`scd.data_available`, the DPS310 barometer outputs, and the SCD30
measurement outputs. -/
structure SensorReadings where
  data_available : Bool
  dps_pressure : Rat
  dps_temperature : Rat
  co2 : Rat
  temperature : Rat
  relative_humidity : Rat
deriving Repr, DecidableEq

/-- The fused record one loop iteration publishes (the fields shared by the
InfluxDB point and the logged MQTT dictionary). -/
structure FusedRecord where
  co2 : Rat
  temperature : Rat
  relative_humidity : Rat
  latitude : Rat
  longitude : Rat
  altitude : Option Rat
  baro_temperature : Rat
  baro_pressure : Rat
  scd30_pressure_mbar : Rat
deriving Repr, DecidableEq

/-- Embeds lines 280-281 of `main`: `if dps310.pressure > 0:
scd.ambient_pressure = dps310.pressure` (the reference pressure must be
greater than 0). -/
def set_scd_pressure_from_barometer (dps_pressure : Rat) (scd : ScdState) : ScdState :=
  if dps_pressure > 0 then { scd with ambient_pressure := dps_pressure } else scd

/-- Result of one iteration of the `while True` sampling loop in `main`:
the published record if any, the GPS cache state, the SCD30 state, and
the emitted log events. -/
structure CycleResult where
  record : Option FusedRecord
  gps_state : CacheState
  scd : ScdState
  logs : List LogEvent
deriving Repr, DecidableEq

/-- Embeds one iteration of the sampling loop in `main` (after the
`time.sleep`): if `scd.data_available` is false, `continue`; otherwise call
`gps.get_data()` and on any exception log
"Error getting current GPS position" and `continue`; otherwise update the
SCD30 ambient pressure from the barometer and publish the fused record.
The loop never carries over a previously fused record: a skipped cycle
publishes nothing. As a total function, it returns on every input, so no
positioning failure propagates out of the iteration. -/
def cycle (maxAge now : Int) (acquireResult : Except String GpsData)
    (r : SensorReadings) (gpsState : CacheState) (scd : ScdState) : CycleResult :=
  if !r.data_available then
    { record := none, gps_state := gpsState, scd := scd, logs := [] }
  else
    let g := get_data maxAge now acquireResult gpsState
    match g.result with
    | Except.error _ =>
      { record := none
        gps_state := g.state
        scd := scd
        logs := g.logs ++ [LogEvent.errorGettingGpsPosition] }
    | Except.ok gps_data =>
      let scd₁ := set_scd_pressure_from_barometer r.dps_pressure scd
      { record := some
          { co2 := r.co2
            temperature := r.temperature
            relative_humidity := r.relative_humidity
            latitude := gps_data.latitude
            longitude := gps_data.longitude
            altitude := gps_data.altitude
            baro_temperature := r.dps_temperature
            baro_pressure := r.dps_pressure
            scd30_pressure_mbar := scd₁.ambient_pressure }
        gps_state := g.state
        scd := scd₁
        logs := g.logs }

/-! Helper lemmas: closed forms of `get_data` on each of its four paths. -/

/-- On a successful acquisition, `get_data` stores and returns the new fix. -/
theorem get_data_ok_eq (maxAge now : Int) (fix : GpsData) (s : CacheState) :
    get_data maxAge now (Except.ok fix) s =
      { result := Except.ok fix, state := { last_fix := some fix }, logs := [] } := by
  simp [get_data]

/-- On a failed acquisition with no stored fix, `get_data` raises
"Waiting for first fix". -/
theorem get_data_error_none_eq (maxAge now : Int) (e : String) (s : CacheState)
    (h : s.last_fix = none) :
    get_data maxAge now (Except.error e) s =
      { result := Except.error GpsError.waitingFirstFix, state := s, logs := [] } := by
  simp [get_data, h]

/-- On a failed acquisition with a stored fix younger than the threshold,
`get_data` warns and returns the stored fix, leaving the state unchanged. -/
theorem get_data_error_fresh_eq (maxAge now : Int) (e : String) (f : GpsData)
    (s : CacheState) (hfix : s.last_fix = some f)
    (hfresh : now - f.acquired_at < maxAge) :
    get_data maxAge now (Except.error e) s =
      { result := Except.ok f, state := s,
        logs := [LogEvent.warnUsingLastFix (now - f.acquired_at)] } := by
  simp [get_data, hfix, hfresh]

/-- On a failed acquisition with a stored fix at or past the threshold,
`get_data` raises the "too old" error, leaving the state unchanged. -/
theorem get_data_error_stale_eq (maxAge now : Int) (e : String) (f : GpsData)
    (s : CacheState) (hfix : s.last_fix = some f)
    (hstale : ¬ now - f.acquired_at < maxAge) :
    get_data maxAge now (Except.error e) s =
      { result := Except.error (GpsError.staleFix (now - f.acquired_at) maxAge),
        state := s, logs := [] } := by
  simp [get_data, hfix, hstale]

/-- C1: when the wrapped acquisition fails and the stored fix's age
(now minus acquired_at) is strictly below the threshold, `get_data` logs a
warning with the age and returns the stored fix unchanged field-for-field
(acquired_at included), leaving the cache untouched; a further failing call
on the resulting state, while still under the threshold, returns the very
same fix again. -/
theorem get_data_failure_fresh_returns_last_fix
    (maxAge now : Int) (e : String) (f : GpsData) (s : CacheState)
    (hfix : s.last_fix = some f)
    (hfresh : now - f.acquired_at < maxAge) :
    (get_data maxAge now (Except.error e) s).result = Except.ok f ∧
    (get_data maxAge now (Except.error e) s).state = s ∧
    (get_data maxAge now (Except.error e) s).logs
      = [LogEvent.warnUsingLastFix (now - f.acquired_at)] ∧
    ∀ now₂ : Int, ∀ e₂ : String, now₂ - f.acquired_at < maxAge →
      (get_data maxAge now₂ (Except.error e₂)
        (get_data maxAge now (Except.error e) s).state).result = Except.ok f := by
  rw [get_data_error_fresh_eq maxAge now e f s hfix hfresh]
  refine ⟨rfl, rfl, rfl, ?_⟩
  intro now₂ e₂ hfresh₂
  rw [get_data_error_fresh_eq maxAge now₂ e₂ f s hfix hfresh₂]

/-- C1 witness: concrete instance with age 100 under a 600-unit threshold. -/
theorem get_data_failure_fresh_returns_last_fix_witness :
    (get_data 600 100 (Except.error "boom")
        { last_fix := some ⟨1, 2, some 3, 0⟩ }).result = Except.ok ⟨1, 2, some 3, 0⟩ ∧
    (get_data 600 100 (Except.error "boom")
        { last_fix := some ⟨1, 2, some 3, 0⟩ }).state
      = { last_fix := some ⟨1, 2, some 3, 0⟩ } ∧
    (get_data 600 100 (Except.error "boom")
        { last_fix := some ⟨1, 2, some 3, 0⟩ }).logs
      = [LogEvent.warnUsingLastFix ((100 : Int) - 0)] ∧
    ∀ now₂ : Int, ∀ e₂ : String, now₂ - (⟨1, 2, some 3, 0⟩ : GpsData).acquired_at < 600 →
      (get_data 600 now₂ (Except.error e₂)
        (get_data 600 100 (Except.error "boom")
          { last_fix := some ⟨1, 2, some 3, 0⟩ }).state).result
        = Except.ok ⟨1, 2, some 3, 0⟩ :=
  get_data_failure_fresh_returns_last_fix 600 100 "boom" ⟨1, 2, some 3, 0⟩
    { last_fix := some ⟨1, 2, some 3, 0⟩ } rfl (by decide)

/-- C2: when the wrapped acquisition fails and the stored fix's age is at or
above the threshold, `get_data` raises the stale-fix error carrying the age
and the threshold, and does not return the stale fix. -/
theorem get_data_failure_stale_raises
    (maxAge now : Int) (e : String) (f : GpsData) (s : CacheState)
    (hfix : s.last_fix = some f)
    (hstale : maxAge ≤ now - f.acquired_at) :
    (get_data maxAge now (Except.error e) s).result
      = Except.error (GpsError.staleFix (now - f.acquired_at) maxAge) ∧
    ∀ d : GpsData, (get_data maxAge now (Except.error e) s).result ≠ Except.ok d := by
  rw [get_data_error_stale_eq maxAge now e f s hfix (not_lt.mpr hstale)]
  exact ⟨rfl, fun d h => Except.noConfusion h⟩

/-- C2 witness: concrete instance with age 600 meeting a 600-unit threshold
exactly. -/
theorem get_data_failure_stale_raises_witness :
    (get_data 600 600 (Except.error "boom")
        { last_fix := some ⟨1, 2, some 3, 0⟩ }).result
      = Except.error (GpsError.staleFix ((600 : Int) - 0) 600) ∧
    ∀ d : GpsData, (get_data 600 600 (Except.error "boom")
        { last_fix := some ⟨1, 2, some 3, 0⟩ }).result ≠ Except.ok d :=
  get_data_failure_stale_raises 600 600 "boom" ⟨1, 2, some 3, 0⟩
    { last_fix := some ⟨1, 2, some 3, 0⟩ } rfl (by decide)

/-- C3: when no acquisition has ever succeeded (the cache is empty),
`get_data` raises "Waiting for first fix" on a failed acquisition,
whatever the failure raised by the source was. -/
theorem get_data_failure_no_fix_raises_waiting
    (maxAge now : Int) (s : CacheState) (h : s.last_fix = none) :
    ∀ e : String,
      (get_data maxAge now (Except.error e) s).result
        = Except.error GpsError.waitingFirstFix := by
  intro e
  rw [get_data_error_none_eq maxAge now e s h]

/-- C3 witness: concrete empty cache and a concrete source error. -/
theorem get_data_failure_no_fix_raises_waiting_witness :
    (get_data 600 0 (Except.error "boom") { last_fix := none }).result
      = Except.error GpsError.waitingFirstFix :=
  get_data_failure_no_fix_raises_waiting 600 0 { last_fix := none } rfl "boom"

/-- C8: on every failing call, in all three failure branches, the stored
`last_fix` afterwards is exactly what it was before; `last_fix` is replaced
exactly by a successful acquisition's fix. -/
theorem get_data_last_fix_only_replaced_on_success
    (maxAge now : Int) (e : String) (fix : GpsData) (s : CacheState) :
    (get_data maxAge now (Except.error e) s).state = s ∧
    (get_data maxAge now (Except.ok fix) s).state.last_fix = some fix := by
  constructor
  · cases hfix : s.last_fix with
    | none => rw [get_data_error_none_eq maxAge now e s hfix]
    | some f =>
      by_cases hage : now - f.acquired_at < maxAge
      · rw [get_data_error_fresh_eq maxAge now e f s hfix hage]
      · rw [get_data_error_stale_eq maxAge now e f s hfix hage]
  · rw [get_data_ok_eq maxAge now fix s]

/-- C9: whenever `get_data` returns normally, the returned fix is exactly
the stored `last_fix` at return time, which is therefore non-empty. -/
theorem get_data_returns_stored_fix
    (maxAge now : Int) (acq : Except String GpsData) (s : CacheState)
    (fix : GpsData)
    (h : (get_data maxAge now acq s).result = Except.ok fix) :
    (get_data maxAge now acq s).state.last_fix = some fix ∧
    ((get_data maxAge now acq s).state.last_fix).isSome = true := by
  suffices hs : (get_data maxAge now acq s).state.last_fix = some fix by
    exact ⟨hs, by rw [hs]; rfl⟩
  cases acq with
  | ok fix₁ =>
    rw [get_data_ok_eq maxAge now fix₁ s] at h ⊢
    cases h
    rfl
  | error e =>
    cases hfix : s.last_fix with
    | none =>
      rw [get_data_error_none_eq maxAge now e s hfix] at h
      exact absurd h (by simp)
    | some f =>
      by_cases hage : now - f.acquired_at < maxAge
      · rw [get_data_error_fresh_eq maxAge now e f s hfix hage] at h ⊢
        cases h
        exact hfix
      · rw [get_data_error_stale_eq maxAge now e f s hfix hage] at h
        exact absurd h (by simp)

/-- C9 witness: concrete successful acquisition into an empty cache. -/
theorem get_data_returns_stored_fix_witness :
    (get_data 600 0 (Except.ok ⟨1, 2, some 3, 0⟩)
        { last_fix := none }).state.last_fix = some ⟨1, 2, some 3, 0⟩ ∧
    ((get_data 600 0 (Except.ok ⟨1, 2, some 3, 0⟩)
        { last_fix := none }).state.last_fix).isSome = true :=
  get_data_returns_stored_fix 600 0 (Except.ok ⟨1, 2, some 3, 0⟩)
    { last_fix := none } ⟨1, 2, some 3, 0⟩ rfl

/-- C4: evaluating `GpsdGps._connect` at a failing connect call. The
exception does propagate, but `_is_valid` is `true` afterwards — the
`finally` clause overwrites the `False` written by the `except` clause —
so the next `_get_data` call skips `_connect` and fetches directly (shown
by the second conjunct: with connecting still broken, the fetch succeeds
without any reconnect attempt). This contradicts the claim that the flag
is false after a failed connect. -/
theorem gpsd_connect_failure_leaves_is_valid_true :
    gpsd_connect false { is_valid := false }
      = (Except.error (), { is_valid := true }) ∧
    gpsd_get_data false (Except.ok ⟨1, 2, some 3, 0⟩) { is_valid := true }
      = (Except.ok ⟨1, 2, some 3, 0⟩, { is_valid := true }) := by
  exact ⟨rfl, rfl⟩

/-- C5: in a cycle where sensor data is available but `get_data` fails (for
any of its error outcomes), the loop logs "Error getting current GPS
position" and skips the remainder of the cycle: no fused record is emitted
and the SCD30 state is untouched. `cycle` is a total function, so the
failure never propagates out of the iteration. -/
theorem cycle_gps_failure_skips
    (maxAge now : Int) (acq : Except String GpsData) (r : SensorReadings)
    (gpsState : CacheState) (scd : ScdState) (err : GpsError)
    (hda : r.data_available = true)
    (herr : (get_data maxAge now acq gpsState).result = Except.error err) :
    (cycle maxAge now acq r gpsState scd).record = none ∧
    (cycle maxAge now acq r gpsState scd).scd = scd ∧
    (cycle maxAge now acq r gpsState scd).logs
      = (get_data maxAge now acq gpsState).logs
          ++ [LogEvent.errorGettingGpsPosition] := by
  simp [cycle, hda, herr]

/-- C5 witness: a concrete cycle whose acquisition fails on an empty cache. -/
theorem cycle_gps_failure_skips_witness :
    (cycle 600 0 (Except.error "boom") ⟨true, 1000, 20, 400, 22, 50⟩
        { last_fix := none } ⟨1007⟩).record = none ∧
    (cycle 600 0 (Except.error "boom") ⟨true, 1000, 20, 400, 22, 50⟩
        { last_fix := none } ⟨1007⟩).scd = ⟨1007⟩ ∧
    (cycle 600 0 (Except.error "boom") ⟨true, 1000, 20, 400, 22, 50⟩
        { last_fix := none } ⟨1007⟩).logs
      = (get_data 600 0 (Except.error "boom") { last_fix := none }).logs
          ++ [LogEvent.errorGettingGpsPosition] :=
  cycle_gps_failure_skips 600 0 (Except.error "boom") ⟨true, 1000, 20, 400, 22, 50⟩
    { last_fix := none } ⟨1007⟩ GpsError.waitingFirstFix rfl rfl

/-- C6: in a cycle that reaches the calibration step (sensor data available
and the GPS fix obtained), the SCD30 ambient-pressure calibration input is
set to the barometric reading exactly when that reading is strictly
positive; for a zero or negative reading the SCD30 state is left unchanged
from its previous value. -/
theorem cycle_sets_ambient_pressure_iff_positive
    (maxAge now : Int) (acq : Except String GpsData) (r : SensorReadings)
    (gpsState : CacheState) (scd : ScdState) (g : GpsData)
    (hda : r.data_available = true)
    (hok : (get_data maxAge now acq gpsState).result = Except.ok g) :
    (0 < r.dps_pressure →
      (cycle maxAge now acq r gpsState scd).scd.ambient_pressure
        = r.dps_pressure) ∧
    (¬ 0 < r.dps_pressure →
      (cycle maxAge now acq r gpsState scd).scd = scd) := by
  constructor <;> intro hp <;>
    simp [cycle, hda, hok, set_scd_pressure_from_barometer, hp]

/-- C6 witness: a concrete cycle with a zero barometric reading leaves the
SCD30 state unchanged (and the positive branch holds vacuously). -/
theorem cycle_sets_ambient_pressure_iff_positive_witness :
    (0 < (0 : Rat) →
      (cycle 600 0 (Except.ok ⟨1, 2, some 3, 0⟩) ⟨true, 0, 20, 400, 22, 50⟩
          { last_fix := none } ⟨1007⟩).scd.ambient_pressure = 0) ∧
    (¬ 0 < (0 : Rat) →
      (cycle 600 0 (Except.ok ⟨1, 2, some 3, 0⟩) ⟨true, 0, 20, 400, 22, 50⟩
          { last_fix := none } ⟨1007⟩).scd = ⟨1007⟩) :=
  cycle_sets_ambient_pressure_iff_positive 600 0 (Except.ok ⟨1, 2, some 3, 0⟩)
    ⟨true, 0, 20, 400, 22, 50⟩ { last_fix := none } ⟨1007⟩ ⟨1, 2, some 3, 0⟩ rfl rfl

/-- C7: the Dummy variant's acquisition never fails and, for one fixed
configuration, returns the same configured latitude, longitude and altitude
on every call: any two calls agree on those three fields. -/
theorem dummy_get_data_pure_never_fails
    (cfg_latitude cfg_longitude cfg_altitude : Rat) (now now₂ : Int) :
    (∃ d : GpsData,
      dummy_get_data cfg_latitude cfg_longitude cfg_altitude now = Except.ok d ∧
      d.latitude = cfg_latitude ∧ d.longitude = cfg_longitude ∧
      d.altitude = some cfg_altitude) ∧
    (dummy_get_data cfg_latitude cfg_longitude cfg_altitude now).toOption.map
        (fun d => (d.latitude, d.longitude, d.altitude))
      = (dummy_get_data cfg_latitude cfg_longitude cfg_altitude now₂).toOption.map
        (fun d => (d.latitude, d.longitude, d.altitude)) := by
  exact ⟨⟨_, rfl, rfl, rfl, rfl⟩, rfl⟩

/-- C10: the time-series sink flag is true exactly when the
`ENABLE_INFLUXDB` environment variable is unset (so the default "true"
applies) or is one of the five accepted strings; any other value, case
variants included, yields false. -/
theorem enable_influxdb_iff (env : Option String) :
    enable_influxdb env = true ↔
      env = none ∨ env = some "true" ∨ env = some "True" ∨ env = some "1"
        ∨ env = some "yes" ∨ env = some "Yes" := by
  cases env with
  | none => simp [enable_influxdb]
  | some s =>
    simp only [enable_influxdb, Option.getD_some, List.contains, List.elem_iff,
      List.mem_cons, List.mem_singleton, List.not_mem_nil, or_false,
      Option.some.injEq]
    tauto

end RibbitCo2
